import Mathlib

/-!
Verification of the crisis detection and escalation pipeline of the
therapy chat backend (`app_for_deployment/server.py`).

Strings are modelled as Lean `String` (a structure over `List Char`), and
the Python text primitives (`str.lower`, `unicodedata.normalize(NFD)`,
`unicodedata.category == Mn`, `str.strip`, the `in` substring operator,
and the `re.search` calls for the fixed pattern list of
`detect_crisis_keywords`) are modelled character-by-character over the
character repertoire the application actually processes: ASCII plus the
Slovak/Czech accented Latin letters.  The session store (the global
`conversations` dict keyed by session id) is modelled by passing the
history of one session explicitly, and the external OpenAI completion
call is modelled by an `ApiOutcome` input describing what the external
service did, exactly as the surrounding code observes it.
-/

/-- Model of Python `str.lower` on one character: ASCII letters and the
Slovak/Czech accented Latin letters used by the application; every other
character is left unchanged. -/
def lowerChar : Char → Char
  | 'A' => 'a'
  | 'B' => 'b'
  | 'C' => 'c'
  | 'D' => 'd'
  | 'E' => 'e'
  | 'F' => 'f'
  | 'G' => 'g'
  | 'H' => 'h'
  | 'I' => 'i'
  | 'J' => 'j'
  | 'K' => 'k'
  | 'L' => 'l'
  | 'M' => 'm'
  | 'N' => 'n'
  | 'O' => 'o'
  | 'P' => 'p'
  | 'Q' => 'q'
  | 'R' => 'r'
  | 'S' => 's'
  | 'T' => 't'
  | 'U' => 'u'
  | 'V' => 'v'
  | 'W' => 'w'
  | 'X' => 'x'
  | 'Y' => 'y'
  | 'Z' => 'z'
  | 'Á' => 'á'
  | 'Ä' => 'ä'
  | 'Č' => 'č'
  | 'Ď' => 'ď'
  | 'É' => 'é'
  | 'Ě' => 'ě'
  | 'Í' => 'í'
  | 'Ĺ' => 'ĺ'
  | 'Ľ' => 'ľ'
  | 'Ň' => 'ň'
  | 'Ó' => 'ó'
  | 'Ô' => 'ô'
  | 'Ŕ' => 'ŕ'
  | 'Ř' => 'ř'
  | 'Š' => 'š'
  | 'Ť' => 'ť'
  | 'Ú' => 'ú'
  | 'Ů' => 'ů'
  | 'Ý' => 'ý'
  | 'Ž' => 'ž'
  | c => c

/-- `True` exactly for the Unicode combining diacritical marks block
U+0300..U+036F, the non-spacing-mark (`Mn`) codepoints produced by NFD
decomposition of the Latin letters above.  Models
`unicodedata.category(c) == Mn` over the modelled repertoire. -/
def isMn (c : Char) : Bool := decide (0x300 ≤ c.toNat) && decide (c.toNat ≤ 0x36F)

/-- Model of `unicodedata.normalize(NFD, ·)` on one character, over the
lower-case Slovak/Czech accented letters (the letters `strip_accents`
meets after `str.lower` in `detect_crisis_keywords`): each decomposes
into its base letter followed by a combining mark; every other character
decomposes to itself. -/
def nfdChar : Char → List Char
  | 'á' => ['a', Char.ofNat 0x301]
  | 'ä' => ['a', Char.ofNat 0x308]
  | 'č' => ['c', Char.ofNat 0x30C]
  | 'ď' => ['d', Char.ofNat 0x30C]
  | 'é' => ['e', Char.ofNat 0x301]
  | 'ě' => ['e', Char.ofNat 0x30C]
  | 'í' => ['i', Char.ofNat 0x301]
  | 'ĺ' => ['l', Char.ofNat 0x301]
  | 'ľ' => ['l', Char.ofNat 0x30C]
  | 'ň' => ['n', Char.ofNat 0x30C]
  | 'ó' => ['o', Char.ofNat 0x301]
  | 'ô' => ['o', Char.ofNat 0x302]
  | 'ŕ' => ['r', Char.ofNat 0x301]
  | 'ř' => ['r', Char.ofNat 0x30C]
  | 'š' => ['s', Char.ofNat 0x30C]
  | 'ť' => ['t', Char.ofNat 0x30C]
  | 'ú' => ['u', Char.ofNat 0x301]
  | 'ů' => ['u', Char.ofNat 0x30A]
  | 'ý' => ['y', Char.ofNat 0x301]
  | 'ž' => ['z', Char.ofNat 0x30C]
  | c => [c]

/-- Model of Python `str.lower`. -/
def str_lower (s : String) : String := ⟨s.data.map lowerChar⟩

/-- `strip_accents` from `server.py`: NFD-decompose and drop every
non-spacing-mark codepoint
(`c for c in unicodedata.normalize(NFD, text) if unicodedata.category(c) != Mn`). -/
def strip_accents (text : String) : String :=
  ⟨(text.data.flatMap nfdChar).filter (fun c => !(isMn c))⟩

/-- The normalization used by the detector: lower-case, then strip
accents (`strip_accents(message.lower())` in `detect_crisis_keywords`). -/
def normalizeText (s : String) : String := strip_accents (str_lower s)

/-- Python whitespace characters stripped by `str.strip()` (ASCII range). -/
def isPySpace (c : Char) : Bool :=
  c == ' ' || c == '\t' || c == '\n' || c == '\x0d' || c == '\x0b' || c == '\x0c'

/-- Model of Python `str.strip()`: remove leading and trailing whitespace. -/
def py_strip (s : String) : String :=
  ⟨((s.data.dropWhile isPySpace).reverse.dropWhile isPySpace).reverse⟩

/-- `occursAt needle hay i` holds when `needle` occurs in `hay` starting
at position `i`. -/
def occursAt (needle hay : List Char) (i : Nat) : Bool :=
  needle == (hay.drop i).take needle.length

/-- Model of the Python substring operator `needle in hay`. -/
def substr (needle hay : List Char) : Bool :=
  (List.range (hay.length + 1)).any (occursAt needle hay)

/-- The apostrophe character, U+0027. -/
def aposC : Char := Char.ofNat 39

/-- `a` followed by an apostrophe followed by `b`, as a character list. -/
def withApos (a b : String) : List Char := a.data ++ aposC :: b.data

/-- The static keyword list of `detect_crisis_keywords` (it is pure ASCII
in the source, written there against the normalized message). -/
def crisis_keywords : List String :=
  ["suicide", "suicidal", "kill myself", "end my life", "want to die", "better off dead",
   "end it all", "take my own life", "hurt myself", "cut myself", "harm myself", "self harm",
   "samovrazda", "sebevrazda", "zabijem sa", "zabit sa", "ukoncit zivot", "chcem zomriet",
   "chci umrit", "ublizit si", "uskodit si",
   "chcem to skoncit", "chci to skoncit", "nevladzem dalej", "uz nemuzu", "je po vsem",
   "nema to zmysel", "nema to smysl",
   "overdose", "predavkoval", "bad trip", "halucinacie",
   "no point living", "life is meaningless", "cannot go on"]

/-- One regular expression of the static `all_patterns` list, in expanded
form.  Every pattern in the source is (an optional `\b` word-boundary
assertion, followed by) a finite alternation of literal strings
(optional-apostrophe groups expanded into both variants), optionally
followed by `[a-z]+`.  `alternatives` lists the literal alternatives. -/
structure CrisisRegex where
  requiresBoundary : Bool
  alternatives : List (List Char)
  lettersAfter : Bool
deriving DecidableEq

/-- Word character for the `\b` assertion: models Python `\w` over the
ASCII range the patterns can match (letters, digits, underscore). -/
def isWordChar (c : Char) : Bool := c.isAlphanum || c == '_'

/-- Whether position `i` of `hay` holds a word character. -/
def wordAt (hay : List Char) (i : Nat) : Bool :=
  decide (i < hay.length) && isWordChar (hay.getD i ' ')

/-- The `\b` assertion of `re` at position `i`: word-ness changes between
the previous position and position `i` (start of string counts as
non-word). -/
def boundaryAt (hay : List Char) (i : Nat) : Bool :=
  wordAt hay i != (if i = 0 then false else wordAt hay (i - 1))

/-- Lower-case ASCII letter, the character class `[a-z]`. -/
def isAzChar (c : Char) : Bool := decide ('a' ≤ c) && decide (c ≤ 'z')

/-- Model of `re.search(pattern, hay)` for the expanded pattern shape:
some alternative occurs at some position, the position satisfies `\b`
when the pattern requires it, and when the pattern ends in `[a-z]+` at
least one lower-case letter follows the occurrence. -/
def regexSearch (p : CrisisRegex) (hay : List Char) : Bool :=
  (List.range (hay.length + 1)).any (fun i =>
    p.alternatives.any (fun alt =>
      occursAt alt hay i
      && (!p.requiresBoundary || boundaryAt hay i)
      && (!p.lettersAfter ||
          (decide (i + alt.length < hay.length) && isAzChar (hay.getD (i + alt.length) ' ')))))

/-- The static `all_patterns` list of `detect_crisis_keywords`, each
regular expression expanded into `CrisisRegex` form in source order:
`myslim na (sebevrazd|samovrazd)`;
`chci (spachat|spachat) (sebevrazd|samovrazd)`;
`chcem (spachat|spachat) (sebevrazd|samovrazd)`;
`chci (skocit|skoncit)`; `chcem (skocit|skoncit)`;
`\bi want to (die|kill|hurt|harm)`; `\bi (wish|want) i (was|were) dead`;
`\bi can’?t (take|handle|deal with) (this|it) anymore`;
`\blife isn’?t worth`; `\bi (am|was) on [a-z]+`; `\bi took [a-z]+`;
`\bi’m (high|tripping|freaking)`; `\bseeing (fractals|patterns|colors)`;
`\bhearing (things|voices)`; `\bcan’?t (stop|come down|control)`. -/
def all_patterns : List CrisisRegex :=
  [⟨false, ["myslim na sebevrazd".data, "myslim na samovrazd".data], false⟩,
   ⟨false, ["chci spachat sebevrazd".data, "chci spachat samovrazd".data], false⟩,
   ⟨false, ["chcem spachat sebevrazd".data, "chcem spachat samovrazd".data], false⟩,
   ⟨false, ["chci skocit".data, "chci skoncit".data], false⟩,
   ⟨false, ["chcem skocit".data, "chcem skoncit".data], false⟩,
   ⟨true, ["i want to die".data, "i want to kill".data, "i want to hurt".data,
           "i want to harm".data], false⟩,
   ⟨true, ["i wish i was dead".data, "i wish i were dead".data,
           "i want i was dead".data, "i want i were dead".data], false⟩,
   ⟨true, ["i cant take this anymore".data, "i cant take it anymore".data,
           "i cant handle this anymore".data, "i cant handle it anymore".data,
           "i cant deal with this anymore".data, "i cant deal with it anymore".data,
           withApos "i can" "t take this anymore", withApos "i can" "t take it anymore",
           withApos "i can" "t handle this anymore", withApos "i can" "t handle it anymore",
           withApos "i can" "t deal with this anymore",
           withApos "i can" "t deal with it anymore"], false⟩,
   ⟨true, ["life isnt worth".data, withApos "life isn" "t worth"], false⟩,
   ⟨true, ["i am on ".data, "i was on ".data], true⟩,
   ⟨true, ["i took ".data], true⟩,
   ⟨true, [withApos "i" "m high", withApos "i" "m tripping", withApos "i" "m freaking"], false⟩,
   ⟨true, ["seeing fractals".data, "seeing patterns".data, "seeing colors".data], false⟩,
   ⟨true, ["hearing things".data, "hearing voices".data], false⟩,
   ⟨true, ["cant stop".data, "cant come down".data, "cant control".data,
           withApos "can" "t stop", withApos "can" "t come down",
           withApos "can" "t control"], false⟩]

/-- `detect_crisis_keywords` from `server.py`: normalize the message,
return `true` if any keyword is a substring, otherwise whether any of
the static patterns matches. -/
def detect_crisis_keywords (message : String) : Bool :=
  let normalized_message := strip_accents (str_lower message)
  if crisis_keywords.any (fun keyword => substr keyword.data normalized_message.data) then true
  else all_patterns.any (fun p => regexSearch p normalized_message.data)

/-- One element of a response sequence returned by the server:
`{"type": ..., "content": ...}`. -/
structure ResponseSegment where
  type : String
  content : String
deriving DecidableEq

/-- `generate_crisis_response_sequence` from `server.py`: the fixed
escalation sequence.  The function takes no arguments in the source, so
its result cannot depend on the input, the session state, or any
external call. -/
def generate_crisis_response_sequence : List ResponseSegment :=
  [⟨"validation", "Ďakujem, že ste mi to povedali. Je to veľmi vážne a je dôležité, aby ste sa porozprávali s niekým, kto vám môže pomôcť práve teraz."⟩,
   ⟨"resources_title", "Tu sú kontakty na linky pomoci. Sú bezplatné, anonymné a dostupné nonstop:"⟩,
   ⟨"resources_list", "• **Ak ste v bezprostrednom ohrození, volajte 112**\n• **Linka dôvery Nezábudka (SK):** 0800 800 566\n• **Krízová linka pomoci (IPčko):** www.krizovalinkapomoci.sk (chat)\n• **Linka bezpečí (CZ):** 116 111"⟩,
   ⟨"encouragement", "Prosím, zvážte zavolanie alebo napísanie na jednu z týchto liniek. Sú tam ľudia, ktorí sú školení na to, aby vám pomohli."⟩,
   ⟨"safety_check", "Som tu s vami. Ste práve teraz v bezpečí?"⟩]

/-- The fixed system prompt `THERAPY_SYSTEM_PROMPT` from `server.py`. -/
def THERAPY_SYSTEM_PROMPT : String := "You are Dr. Sarah Chen, an experienced licensed psychotherapist with over 15 years of practice specializing in cognitive-behavioral therapy, trauma-informed care, and crisis intervention. You provide compassionate, evidence-based mental health support in Slovak language.

IMPORTANT GUIDELINES:
- Always respond in Slovak language
- Be empathetic, warm, and professional
- Use person-centered approach
- Validate emotions and experiences
- Offer practical coping strategies when appropriate
- Maintain appropriate therapeutic boundaries
- If you detect crisis situation, prioritize safety and provide emergency resources
- Keep responses concise but meaningful (2-4 sentences usually)
- Use simple, accessible language
- Show genuine care and concern

You create a safe, non-judgmental space for people to share their thoughts and feelings."

/-- `generate_fallback_response` from `server.py`: greeting words are
checked on the lower-cased (not accent-stripped) message; then thanks
words; otherwise a generic empathetic reply. -/
def generate_fallback_response (user_message : String) : String :=
  if ["ahoj", "hello", "hi", "hey", "dobry den"].any
      (fun word => substr word.data (str_lower user_message).data) then
    "Ahoj, som tu na to, aby som vám ponúkol podporu. Ako sa dnes cítite?"
  else if ["dakujem", "thank", "vďaka"].any
      (fun word => substr word.data (str_lower user_message).data) then
    "Nie je za čo. Som tu pre vás. Môžete mi povedať viac o tom, čo vás trápi?"
  else
    "Počujem vás a rozumiem, že prechádzate ťažkým obdobím. Môžete mi povedať viac o tom, čo sa deje?"

/-- One conversation turn stored in the `conversations` session store:
`{"role": ..., "content": ...}`. -/
structure Turn where
  role : String
  content : String
deriving DecidableEq

/-- One message of the request payload sent to the completion backend. -/
structure ApiMessage where
  role : String
  content : String
deriving DecidableEq

/-- What the external OpenAI completion call did, as observed by
`call_openai_api`: it raised an exception carrying a message, or it
returned a response whose `choices` hold the listed message contents. -/
inductive ApiOutcome where
  | raised (msg : String)
  | choices (cs : List String)
deriving DecidableEq

/-- `true` when the outcome is a raised exception. -/
def ApiOutcome.isRaised : ApiOutcome → Bool
  | .raised _ => true
  | .choices _ => false

/-- The request payload `messages` assembled by `call_openai_api`
(lines 110-121 of `server.py`): the system prompt, then the last 10
turns of the conversation history (all of it when it holds at most 10),
then the current user message once more. -/
def build_openai_messages (user_message : String) (conversation_history : List Turn) :
    List ApiMessage :=
  let recent_history :=
    if conversation_history.length > 10 then
      conversation_history.drop (conversation_history.length - 10)
    else conversation_history
  (⟨"system", THERAPY_SYSTEM_PROMPT⟩ ::
    recent_history.map (fun msg =>
      ⟨if msg.role = "user" then "user" else "assistant", msg.content⟩))
  ++ [⟨"user", user_message⟩]

/-- The `except Exception` block of `call_openai_api`: dispatch on the
lower-cased exception text (`str(e).lower()`), returning the rate-limit
notice, the authentication notice, or a fallback reply. -/
def openai_error_reply (user_message e : String) : String :=
  if substr "rate limit".data (str_lower e).data then
    "Prepáčte, momentálne je server preťažený. Skúste to prosím o chvíľu."
  else if substr "invalid request".data (str_lower e).data then
    generate_fallback_response user_message
  else if substr "authentication".data (str_lower e).data
      || substr "authorization".data (str_lower e).data then
    "Chyba autentifikácie. Kontaktujte administrátora."
  else generate_fallback_response user_message

/-- The reply string produced by `call_openai_api` in `server.py`.  The
source function also receives `conversation_history`, which it uses only
to assemble the request payload (`build_openai_messages` above); the
returned reply never depends on it.  `clientAvailable` models
`MODEL_AVAILABLE and client`; `api` is what the external call did. -/
def call_openai_api (user_message : String) (clientAvailable : Bool)
    (api : ApiOutcome) : String :=
  if clientAvailable = false then generate_fallback_response user_message
  else
    match api with
    | .choices [] => generate_fallback_response user_message
    | .choices (c :: _) => py_strip c
    | .raised e => openai_error_reply user_message e

/-- The observable result of one `/chat` request for one session:
the stored history after the request, the HTTP status, the returned
response sequence and crisis flag, how many times the completion
backend was invoked and the detector was run during the request, and
the request payload sent to the backend (`none` when no payload was
assembled). -/
structure ChatResult where
  history : List Turn
  status : Nat
  response_sequence : List ResponseSegment
  crisis_detected : Option Bool
  backendCalls : Nat
  detectCalls : Nat
  sentMessages : Option (List ApiMessage)
deriving DecidableEq

/-- The `/chat` handler `chat` from `server.py`, for one session whose
stored history is `history`: strip the raw message and reject it when
empty; otherwise run the detector; on a positive detection append the
user turn and the synthesized `[CRISIS PROTOCOL ACTIVATED]` assistant
turn and return the escalation sequence without calling the backend; on
a negative detection append the user turn, call the backend, append its
reply, and truncate the history to its last 20 turns. -/
def chat (raw : String) (history : List Turn) (clientAvailable : Bool)
    (api : ApiOutcome) : ChatResult :=
  let user_message := py_strip raw
  if user_message = "" then
    { history := history, status := 400, response_sequence := [],
      crisis_detected := none, backendCalls := 0, detectCalls := 0,
      sentMessages := none }
  else if detect_crisis_keywords user_message = true then
    let crisis_response_sequence := generate_crisis_response_sequence
    let full_crisis_text :=
      String.intercalate "\n" (crisis_response_sequence.map (fun msg => msg.content))
    { history := history ++
        [⟨"user", user_message⟩,
         ⟨"assistant", "[CRISIS PROTOCOL ACTIVATED] " ++ full_crisis_text⟩],
      status := 200, response_sequence := crisis_response_sequence,
      crisis_detected := some true, backendCalls := 0, detectCalls := 1,
      sentMessages := none }
  else
    let h1 := history ++ [⟨"user", user_message⟩]
    let bot_reply := call_openai_api user_message clientAvailable api
    let h2 := h1 ++ [⟨"assistant", bot_reply⟩]
    { history := if h2.length > 20 then h2.drop (h2.length - 20) else h2,
      status := 200, response_sequence := [⟨"standard", bot_reply⟩],
      crisis_detected := some false, backendCalls := 1, detectCalls := 1,
      sentMessages := if clientAvailable then some (build_openai_messages user_message h1)
        else none }

/-- The input of one handled turn: the raw message and what the external
completion service would do on this turn. -/
structure TurnInput where
  raw : String
  clientAvailable : Bool
  api : ApiOutcome
deriving DecidableEq

/-- Handle a sequence of turns for one session, threading the stored
history through `chat`. -/
def handleTurns (tins : List TurnInput) (history : List Turn) : List Turn :=
  match tins with
  | [] => history
  | t :: rest => handleTurns rest (chat t.raw history t.clientAvailable t.api).history

/-- The two turns a crisis-negative handled turn appends to the session
history: the stripped user message and the backend (or fallback) reply. -/
def turnPair (t : TurnInput) : List Turn :=
  [⟨"user", py_strip t.raw⟩,
   ⟨"assistant", call_openai_api (py_strip t.raw) t.clientAvailable t.api⟩]

/-- All turns appended by a sequence of crisis-negative handled turns. -/
def expandTurns (tins : List TurnInput) : List Turn := tins.flatMap turnPair

/-- The truncation applied by the `/chat` handler after a normal turn:
keep the last 20 turns (`conversations[session_id][-20:]` guarded by
`len > 20`). -/
def recent20 (l : List Turn) : List Turn :=
  if l.length > 20 then l.drop (l.length - 20) else l

set_option maxRecDepth 20000

/-- The effect of the detector normalization on one character: lower it,
NFD-decompose it, and drop the non-spacing marks. -/
def normCharL (c : Char) : List Char :=
  (nfdChar (lowerChar c)).filter (fun d => !(isMn d))

/-- The lower-case ASCII letters, the base letters the character tables
above can produce. -/
def lowerAsciiChars : List Char := "abcdefghijklmnopqrstuvwxyz".data

/-- The history window passed to the completion backend: the last 10
turns (`conversation_history[-10:]` guarded by `len > 10` in
`call_openai_api`). -/
def recent10 (l : List Turn) : List Turn :=
  if l.length > 10 then l.drop (l.length - 10) else l

theorem normCharL_parts (c : Char) :
    normCharL c = [c] ∨ ∀ d ∈ normCharL c, d ∈ lowerAsciiChars := by
  unfold normCharL lowerChar
  split <;> try (right; decide)
  unfold nfdChar
  split <;> try (right; decide)
  by_cases hm : isMn c = true
  · right
    intro d hd
    simp [hm] at hd
  · left
    simp [hm]

theorem normCharL_base : ∀ d ∈ lowerAsciiChars, normCharL d = [d] := by decide

theorem normCharL_fix (c : Char) : ∀ d ∈ normCharL c, normCharL d = [d] := by
  rcases normCharL_parts c with h | h
  · intro d hd
    rw [h, List.mem_singleton] at hd
    rw [hd]
    exact h
  · intro d hd
    exact normCharL_base d (h d hd)

theorem flatMap_fixpoints {α : Type} (f : α → List α) :
    ∀ L : List α, (∀ d ∈ L, f d = [d]) → L.flatMap f = L := by
  intro L
  induction L with
  | nil => intro _; rfl
  | cons a L ih =>
    intro h
    rw [List.flatMap_cons, h a (by simp), ih (fun d hd => h d (by simp [hd]))]
    rfl

theorem norm_data_eq (l : List Char) :
    ((l.map lowerChar).flatMap nfdChar).filter (fun d => !(isMn d)) =
      l.flatMap normCharL := by
  induction l with
  | nil => rfl
  | cons a l ih => simp [List.flatMap_cons, List.filter_append, normCharL, ih]

theorem flatMap_normCharL_idem (l : List Char) :
    (l.flatMap normCharL).flatMap normCharL = l.flatMap normCharL := by
  induction l with
  | nil => rfl
  | cons a l ih =>
    rw [List.flatMap_cons, List.flatMap_append,
      flatMap_fixpoints normCharL (normCharL a) (normCharL_fix a), ih]

theorem normalizeText_data (s : String) :
    (normalizeText s).data = s.data.flatMap normCharL := norm_data_eq s.data

theorem fallback_ne_empty (m : String) : generate_fallback_response m ≠ "" := by
  unfold generate_fallback_response
  split
  · decide
  · split
    · decide
    · decide

theorem fallback_cases (m : String) :
    generate_fallback_response m
        = "Ahoj, som tu na to, aby som vám ponúkol podporu. Ako sa dnes cítite?"
    ∨ generate_fallback_response m
        = "Nie je za čo. Som tu pre vás. Môžete mi povedať viac o tom, čo vás trápi?"
    ∨ generate_fallback_response m
        = "Počujem vás a rozumiem, že prechádzate ťažkým obdobím. Môžete mi povedať viac o tom, čo sa deje?" := by
  unfold generate_fallback_response
  split
  · left
    rfl
  · split
    · right
      left
      rfl
    · right
      right
      rfl

theorem openai_error_reply_ne_empty (m e : String) : openai_error_reply m e ≠ "" := by
  unfold openai_error_reply
  split
  · decide
  · split
    · exact fallback_ne_empty _
    · split
      · decide
      · exact fallback_ne_empty _

theorem recent20_eq_drop (l : List Turn) : recent20 l = l.drop (l.length - 20) := by
  unfold recent20
  split
  · rfl
  · next h =>
    rw [Nat.sub_eq_zero_of_le (by omega), List.drop_zero]

theorem recent20_length_le (l : List Turn) : (recent20 l).length ≤ 20 := by
  unfold recent20
  split
  · next h =>
    rw [List.length_drop]
    omega
  · next h => omega

theorem recent20_append (A p : List Turn) :
    recent20 (recent20 A ++ p) = recent20 (A ++ p) := by
  rw [recent20_eq_drop A, recent20_eq_drop, recent20_eq_drop]
  rw [← List.drop_append_of_le_length (Nat.sub_le A.length 20)]
  rw [List.drop_drop]
  congr 1
  simp [List.length_append, List.length_drop]
  omega

theorem chat_normal_history (t : TurnInput) (history : List Turn)
    (h1 : py_strip t.raw ≠ "") (h2 : detect_crisis_keywords (py_strip t.raw) = false) :
    (chat t.raw history t.clientAvailable t.api).history = recent20 (history ++ turnPair t) := by
  unfold chat
  rw [if_neg h1, if_neg (by simp [h2])]
  unfold recent20 turnPair
  simp [List.append_assoc]

theorem handleTurns_eq (tins : List TurnInput) :
    ∀ A : List Turn,
      tins.all (fun t => !(py_strip t.raw == "")
        && !detect_crisis_keywords (py_strip t.raw)) = true →
      handleTurns tins (recent20 A) = recent20 (A ++ expandTurns tins) := by
  induction tins with
  | nil =>
    intro A _
    simp [handleTurns, expandTurns]
  | cons t rest ih =>
    intro A hall
    rw [List.all_cons, Bool.and_eq_true] at hall
    obtain ⟨ht, hrest⟩ := hall
    rw [Bool.and_eq_true] at ht
    have h1 : py_strip t.raw ≠ "" := by
      intro he
      have hx := ht.1
      rw [he] at hx
      simp at hx
    have h2 : detect_crisis_keywords (py_strip t.raw) = false := by
      simpa using ht.2
    show handleTurns rest (chat t.raw (recent20 A) t.clientAvailable t.api).history = _
    rw [chat_normal_history t (recent20 A) h1 h2, recent20_append, ih (A ++ turnPair t) hrest]
    congr 1
    simp [expandTurns, List.append_assoc]

/-- C1 counterexample: the claim asserts the stored history stays at
length at most 20 after any append on both the crisis path and the
normal-completion path, but the crisis path of the `/chat` handler
appends two turns and never truncates, so 11 consecutive crisis turns
leave the stored session history at length 22. -/
theorem c1_history_bound_counterexample :
    ¬ ((handleTurns (List.replicate 11
        ⟨"suicide", false, ApiOutcome.choices []⟩) []).length ≤ 20) := by decide

/-- C1 (amended): for every sequence of handled turns that all take the
normal-completion (crisis-negative, non-empty) path, the stored session
history after the sequence is exactly the truncation of all appended
turns to the most recent 20 in their original order, and its length is
at most 20.  (The crisis path performs no truncation, so the original
bound fails there; see the counterexample.) -/
theorem c1_history_bound_amended (tins : List TurnInput)
    (h : tins.all (fun t => !(py_strip t.raw == "")
      && !detect_crisis_keywords (py_strip t.raw)) = true) :
    handleTurns tins [] = recent20 (expandTurns tins)
    ∧ (handleTurns tins []).length ≤ 20 := by
  have e := handleTurns_eq tins [] h
  rw [show recent20 ([] : List Turn) = [] from rfl, List.nil_append] at e
  exact ⟨e, by rw [e]; exact recent20_length_le _⟩

/-- Witness for C1 (amended) at 11 crisis-negative turns (22 appended
turns, truncated to the most recent 20). -/
theorem c1_history_bound_amended_witness :
    (List.replicate 11
        (⟨"hello", false, ApiOutcome.choices []⟩ : TurnInput)).all
      (fun t => !(py_strip t.raw == "")
        && !detect_crisis_keywords (py_strip t.raw)) = true
    ∧ (handleTurns (List.replicate 11
          (⟨"hello", false, ApiOutcome.choices []⟩ : TurnInput)) []
        = recent20 (expandTurns (List.replicate 11
          (⟨"hello", false, ApiOutcome.choices []⟩ : TurnInput)))
      ∧ (handleTurns (List.replicate 11
          (⟨"hello", false, ApiOutcome.choices []⟩ : TurnInput)) []).length ≤ 20) :=
  ⟨by decide, c1_history_bound_amended _ (by decide)⟩

/-- C2: on every handled turn whose (stripped) message is non-empty and
on which the detector returns true, the `/chat` handler returns the
fixed escalation sequence with the crisis flag set, assembles no request
payload, and never invokes the completion backend. -/
theorem c2_crisis_path_no_backend (raw : String) (history : List Turn)
    (clientAvailable : Bool) (api : ApiOutcome) (h1 : py_strip raw ≠ "")
    (h2 : detect_crisis_keywords (py_strip raw) = true) :
    (chat raw history clientAvailable api).response_sequence
        = generate_crisis_response_sequence
    ∧ (chat raw history clientAvailable api).crisis_detected = some true
    ∧ (chat raw history clientAvailable api).backendCalls = 0
    ∧ (chat raw history clientAvailable api).sentMessages = none := by
  unfold chat
  rw [if_neg h1, if_pos h2]
  exact ⟨rfl, rfl, rfl, rfl⟩

/-- Witness for C2 at the crisis-positive message "suicide". -/
theorem c2_crisis_path_no_backend_witness :
    (py_strip "suicide" ≠ "" ∧ detect_crisis_keywords (py_strip "suicide") = true)
    ∧ ((chat "suicide" [] true (ApiOutcome.choices ["ok"])).response_sequence
          = generate_crisis_response_sequence
      ∧ (chat "suicide" [] true (ApiOutcome.choices ["ok"])).crisis_detected = some true
      ∧ (chat "suicide" [] true (ApiOutcome.choices ["ok"])).backendCalls = 0
      ∧ (chat "suicide" [] true (ApiOutcome.choices ["ok"])).sentMessages = none) :=
  ⟨⟨by decide, by decide⟩,
    c2_crisis_path_no_backend "suicide" [] true (ApiOutcome.choices ["ok"])
      (by decide) (by decide)⟩

/-- C3: `detect_crisis_keywords m` is true exactly when the normalized
form of `m` (lower-cased, accents stripped) contains some keyword of the
static keyword set as a substring or matches some regular expression of
the static pattern list; in particular it is true on "Chcem zomrieť" and
on "I can’t take this anymore", and false on "How is the weather today?"
and on the empty string. -/
theorem c3_detect_spec :
    (∀ m : String, detect_crisis_keywords m =
      (crisis_keywords.any
          (fun keyword => substr keyword.data (strip_accents (str_lower m)).data)
        || all_patterns.any
          (fun p => regexSearch p (strip_accents (str_lower m)).data)))
    ∧ detect_crisis_keywords "Chcem zomrieť" = true
    ∧ detect_crisis_keywords ⟨withApos "I can" "t take this anymore"⟩ = true
    ∧ detect_crisis_keywords "How is the weather today?" = false
    ∧ detect_crisis_keywords "" = false := by
  refine ⟨fun m => ?_, by decide, by decide, by decide, by decide⟩
  unfold detect_crisis_keywords
  by_cases h : crisis_keywords.any
      (fun keyword => substr keyword.data (strip_accents (str_lower m)).data) = true
  · simp [h]
  · simp [h]

/-- C4: the escalation responder returns a fixed sequence of exactly 5
segments whose kinds appear in the order validation, resources_title,
resources_list, encouragement, safety_check, each with non-empty static
content; the function takes no input, so its result cannot depend on the
message, the session state, or any external call. -/
theorem c4_crisis_sequence_fixed :
    generate_crisis_response_sequence.length = 5
    ∧ generate_crisis_response_sequence.map (fun seg => seg.type)
        = ["validation", "resources_title", "resources_list", "encouragement", "safety_check"]
    ∧ generate_crisis_response_sequence.all (fun seg => !(seg.content == "")) = true := by
  refine ⟨rfl, rfl, by decide⟩

/-- C5: the text normalizer (lower-casing followed by NFD decomposition
and removal of non-spacing marks) is idempotent; it is a plain function
of its input, hence total and deterministic by construction. -/
theorem c5_normalize_idempotent (s : String) :
    normalizeText (normalizeText s) = normalizeText s := by
  apply String.ext
  rw [normalizeText_data, normalizeText_data]
  exact flatMap_normCharL_idem s.data

/-- Witness for C5 at a concrete accented string. -/
theorem c5_normalize_idempotent_witness :
    normalizeText (normalizeText "Chcem zomrieť") = normalizeText "Chcem zomrieť" :=
  c5_normalize_idempotent "Chcem zomrieť"

/-- C6 counterexample: the claim asserts the completion backend receives
the system prompt together with exactly the most recent 10 turns of the
stored history; at a concrete turn with an initially-empty session the
payload would then be the system message followed by the single stored
user turn, but `call_openai_api` additionally appends the current user
message once more, so the payload holds it twice. -/
theorem c6_context_counterexample :
    ¬ ((chat "hello" [] true (ApiOutcome.choices ["ok"])).sentMessages
      = some [⟨"system", THERAPY_SYSTEM_PROMPT⟩, ⟨"user", "hello"⟩]) := by decide

/-- C6 (amended): on every crisis-negative turn with the client
available, the completion backend is invoked with the fixed system
prompt, then the most recent 10 turns of the stored history (which at
call time already ends with the just-appended current user turn), then
the current user message appended once more — so the current user turn
appears in the payload once more than in the history window. -/
theorem c6_context_amended (raw : String) (history : List Turn) (api : ApiOutcome)
    (h1 : py_strip raw ≠ "") (h2 : detect_crisis_keywords (py_strip raw) = false) :
    (chat raw history true api).sentMessages =
      some ((⟨"system", THERAPY_SYSTEM_PROMPT⟩ ::
        (recent10 (history ++ [⟨"user", py_strip raw⟩])).map
          (fun msg => ⟨if msg.role = "user" then "user" else "assistant", msg.content⟩))
        ++ [⟨"user", py_strip raw⟩]) := by
  unfold chat
  rw [if_neg h1, if_neg (by simp [h2])]
  unfold build_openai_messages recent10
  rfl

/-- Witness for C6 (amended) at the message "hello" and an empty
session history. -/
theorem c6_context_amended_witness :
    (py_strip "hello" ≠ "" ∧ detect_crisis_keywords (py_strip "hello") = false)
    ∧ (chat "hello" [] true (ApiOutcome.choices ["ok"])).sentMessages =
        some ((⟨"system", THERAPY_SYSTEM_PROMPT⟩ ::
          (recent10 ([] ++ [⟨"user", py_strip "hello"⟩])).map
            (fun msg => ⟨if msg.role = "user" then "user" else "assistant", msg.content⟩))
          ++ [⟨"user", py_strip "hello"⟩]) :=
  ⟨⟨by decide, by decide⟩,
    c6_context_amended "hello" [] (ApiOutcome.choices ["ok"]) (by decide) (by decide)⟩

/-- C7: a request whose message strips to the empty string is rejected
with a client error (HTTP 400) before the detector runs, and the stored
session history is left unchanged. -/
theorem c7_empty_message_rejected (raw : String) (history : List Turn)
    (clientAvailable : Bool) (api : ApiOutcome) (h : py_strip raw = "") :
    chat raw history clientAvailable api =
      { history := history, status := 400, response_sequence := [],
        crisis_detected := none, backendCalls := 0, detectCalls := 0,
        sentMessages := none } := by
  unfold chat
  rw [if_pos h]

/-- Witness for C7 at a whitespace-only message and a non-empty history. -/
theorem c7_empty_message_rejected_witness :
    py_strip "   " = ""
    ∧ chat "   " [⟨"user", "x"⟩] true (ApiOutcome.choices ["ok"]) =
        { history := [⟨"user", "x"⟩], status := 400, response_sequence := [],
          crisis_detected := none, backendCalls := 0, detectCalls := 0,
          sentMessages := none } :=
  ⟨by decide,
    c7_empty_message_rejected "   " [⟨"user", "x"⟩] true (ApiOutcome.choices ["ok"])
      (by decide)⟩

/-- C8: on every crisis-negative turn on which the completion backend
fails (client unavailable, exception raised, or empty choices), the turn
still completes with status 200 and a single standard segment carrying a
non-empty reply; the backend failure is never surfaced as a hard failure
of the turn. -/
theorem c8_backend_failure_fallback (raw : String) (history : List Turn)
    (ca : Bool) (api : ApiOutcome)
    (h1 : py_strip raw ≠ "") (h2 : detect_crisis_keywords (py_strip raw) = false)
    (hf : ca = false ∨ api = ApiOutcome.choices [] ∨ api.isRaised = true) :
    (chat raw history ca api).status = 200
    ∧ (chat raw history ca api).response_sequence
        = [⟨"standard", call_openai_api (py_strip raw) ca api⟩]
    ∧ call_openai_api (py_strip raw) ca api ≠ "" := by
  refine ⟨?_, ?_, ?_⟩
  · unfold chat
    rw [if_neg h1, if_neg (by simp [h2])]
  · unfold chat
    rw [if_neg h1, if_neg (by simp [h2])]
  · unfold call_openai_api
    rcases hf with hca | hc | hr
    · rw [if_pos hca]
      exact fallback_ne_empty _
    · rw [hc]
      by_cases hca : ca = false
      · rw [if_pos hca]
        exact fallback_ne_empty _
      · rw [if_neg hca]
        exact fallback_ne_empty _
    · cases api with
      | choices cs => simp [ApiOutcome.isRaised] at hr
      | raised e =>
        by_cases hca : ca = false
        · rw [if_pos hca]
          exact fallback_ne_empty _
        · rw [if_neg hca]
          exact openai_error_reply_ne_empty _ _

/-- Witness for C8 at the message "hello" with a raised rate-limit
exception. -/
theorem c8_backend_failure_fallback_witness :
    (py_strip "hello" ≠ ""
      ∧ detect_crisis_keywords (py_strip "hello") = false
      ∧ (true = false ∨ ApiOutcome.raised "Rate limit exceeded" = ApiOutcome.choices []
          ∨ (ApiOutcome.raised "Rate limit exceeded").isRaised = true))
    ∧ ((chat "hello" [] true (ApiOutcome.raised "Rate limit exceeded")).status = 200
      ∧ (chat "hello" [] true (ApiOutcome.raised "Rate limit exceeded")).response_sequence
          = [⟨"standard",
              call_openai_api (py_strip "hello") true (ApiOutcome.raised "Rate limit exceeded")⟩]
      ∧ call_openai_api (py_strip "hello") true (ApiOutcome.raised "Rate limit exceeded") ≠ "") :=
  ⟨⟨by decide, by decide, by decide⟩,
    c8_backend_failure_fallback "hello" [] true (ApiOutcome.raised "Rate limit exceeded")
      (by decide) (by decide) (by decide)⟩

/-- C9: crisis detection is a pure function of the message text and the
static rule set: across any two runs of the `/chat` handler on the same
raw message, the resulting crisis-detection outcome is identical
whatever the session histories, client availability, and backend
outcomes of the two runs are. -/
theorem c9_detection_noninterference (raw : String) (h1 h2 : List Turn)
    (ca1 ca2 : Bool) (api1 api2 : ApiOutcome) :
    (chat raw h1 ca1 api1).crisis_detected = (chat raw h2 ca2 api2).crisis_detected := by
  unfold chat
  by_cases he : py_strip raw = ""
  · rw [if_pos he, if_pos he]
  · rw [if_neg he, if_neg he]
    by_cases hd : detect_crisis_keywords (py_strip raw) = true
    · rw [if_pos hd, if_pos hd]
    · rw [if_neg hd, if_neg hd]

/-- C10: the fallback reply lower-cases the raw message but does not
strip accents, so any message containing a lower-cased greeting word
gets the greeting reply while the accented "Dobrý deň" falls through to
the generic empathetic reply; and every fallback reply is one of three
fixed non-empty Slovak strings. -/
theorem c10_fallback_greeting :
    (∀ m : String,
      (["ahoj", "hello", "hi", "hey", "dobry den"].any
        (fun word => substr word.data (str_lower m).data)) = true →
      generate_fallback_response m
        = "Ahoj, som tu na to, aby som vám ponúkol podporu. Ako sa dnes cítite?")
    ∧ generate_fallback_response "Dobrý deň"
        = "Počujem vás a rozumiem, že prechádzate ťažkým obdobím. Môžete mi povedať viac o tom, čo sa deje?"
    ∧ (∀ m : String,
        generate_fallback_response m
            = "Ahoj, som tu na to, aby som vám ponúkol podporu. Ako sa dnes cítite?"
        ∨ generate_fallback_response m
            = "Nie je za čo. Som tu pre vás. Môžete mi povedať viac o tom, čo vás trápi?"
        ∨ generate_fallback_response m
            = "Počujem vás a rozumiem, že prechádzate ťažkým obdobím. Môžete mi povedať viac o tom, čo sa deje?")
    ∧ (∀ m : String, generate_fallback_response m ≠ "") := by
  refine ⟨fun m h => ?_, by decide, fallback_cases, fallback_ne_empty⟩
  unfold generate_fallback_response
  rw [if_pos h]

/-- Witness for C10 at the greeting message "ahoj". -/
theorem c10_fallback_greeting_witness :
    (["ahoj", "hello", "hi", "hey", "dobry den"].any
      (fun word => substr word.data (str_lower "ahoj").data)) = true
    ∧ generate_fallback_response "ahoj"
        = "Ahoj, som tu na to, aby som vám ponúkol podporu. Ako sa dnes cítite?" :=
  ⟨by decide, c10_fallback_greeting.1 "ahoj" (by decide)⟩
